import Mathlib

/-!
Shallow embedding of the Traffic3D traffic-simulation core.

The model follows the JavaScript sources: the `Car` class of
`src/unnamed/part_001` (IDM acceleration, semi-implicit Euler integration,
parameter setters, the lane-change state machine) and the `Lane` tick loop of
`src/src/js/Lane.js` lines 147-188 (identical to the composite-lane variant in
`src/src/js/Curve.js` lines 232-277).  JavaScript numbers are modelled as real
numbers; `Infinity` gaps are modelled as `Option ℝ` with `none` standing for
"no leader"; `null` fields are `Option` values.  Rendering-only state (meshes,
quaternions, colors) is outside the simulation core and is not modelled.
-/

noncomputable section

namespace Traffic3D

/-- Model of THREE.MathUtils.clamp value min max = Math.max(min, Math.min(max, value)). -/
def clamp (value lo hi : ℝ) : ℝ := max lo (min hi value)

/-- Model of THREE.MathUtils.euclideanModulo n m = ((n % m) + m) % m.  For a
positive modulus this equals the floor-based remainder n - m·⌊n/m⌋, which is the
form used here. -/
def emod (n m : ℝ) : ℝ := n - m * ⌊n / m⌋

/-- Model of THREE.Vector3: only the components and the operations the lane-change
code uses (addScaledVector, length, distanceTo, normalize). -/
structure Vec3 where
  x : ℝ
  y : ℝ
  z : ℝ

/-- Model of THREE.Vector3.addScaledVector: v + w * s componentwise. -/
def Vec3.addScaled (v w : Vec3) (s : ℝ) : Vec3 :=
  ⟨v.x + w.x * s, v.y + w.y * s, v.z + w.z * s⟩

/-- Model of THREE.Vector3.length. -/
def Vec3.norm (v : Vec3) : ℝ := Real.sqrt (v.x ^ 2 + v.y ^ 2 + v.z ^ 2)

/-- Model of THREE.Vector3.distanceTo. -/
def Vec3.distanceTo (v w : Vec3) : ℝ := Vec3.norm ⟨v.x - w.x, v.y - w.y, v.z - w.z⟩

/-- Model of THREE.Vector3.normalize, which divides by length() || 1: a zero
vector is returned unchanged. -/
def Vec3.normalize (v : Vec3) : Vec3 :=
  if v.norm = 0 then v else ⟨v.x / v.norm, v.y / v.norm, v.z / v.norm⟩

/-- Cubic Bezier control polygon built by Car.startLaneChange. -/
structure BezierCurve where
  startPoint : Vec3
  control1 : Vec3
  control2 : Vec3
  endPoint : Vec3

/-- Car.state field: the string values DRIVING and MERGING. -/
inductive CarState where
  | DRIVING
  | MERGING
deriving DecidableEq

/-- Car.laneChange object created by startLaneChange (part_001 lines 278-287).
desiredSpeed is null unless retainSpeed was requested. -/
structure LaneChangeState where
  duration : ℝ
  elapsed : ℝ
  progress : ℝ
  startPosition : ℝ
  targetDistance : ℝ
  curve : BezierCurve
  retainSpeed : Bool
  desiredSpeed : Option ℝ

/-- Simulation-relevant state of the Car class of part_001.  The `id` field
stands for JavaScript object identity (lanes store references to car objects;
removeCar compares with ===). -/
structure Car where
  id : ℕ
  length : ℝ
  width : ℝ
  height : ℝ
  halfLength : ℝ
  maxSpeed : ℝ
  maxAcceleration : ℝ
  comfortableDeceleration : ℝ
  safeTimeHeadway : ℝ
  minGap : ℝ
  distanceGap : ℝ
  speed : ℝ
  acceleration : ℝ
  position : ℝ
  curveLength : ℝ
  laneIndex : ℤ
  laneChange : Option LaneChangeState
  state : CarState

/-- Constructor arguments of the Car class (part_001 lines 9-25) that feed the
simulation state.  pathLength stands for this.path.getLength(); the constructor
throws when no path resolves, so a valid path length is a prerequisite here. -/
structure CarParams where
  id : ℕ
  laneIndex : ℤ
  length : ℝ
  width : ℝ
  height : ℝ
  maxSpeed : ℝ
  maxAcceleration : ℝ
  comfortableDeceleration : ℝ
  safeTimeHeadway : ℝ
  minGap : ℝ
  distanceGap : ℝ
  initialSpeed : ℝ
  initialPosition : ℝ
  pathLength : ℝ

/-- Car constructor body (part_001 lines 26-72): maxSpeed is floored at 0.1,
speed is clamped into [0, maxSpeed], the car starts DRIVING with no lane
change. -/
def mkCar (p : CarParams) : Car :=
  let ms := max (1 / 10) p.maxSpeed
  { id := p.id
    length := p.length
    width := p.width
    height := p.height
    halfLength := p.length * (1 / 2)
    maxSpeed := ms
    maxAcceleration := p.maxAcceleration
    comfortableDeceleration := p.comfortableDeceleration
    safeTimeHeadway := p.safeTimeHeadway
    minGap := p.minGap
    distanceGap := p.distanceGap
    speed := clamp p.initialSpeed 0 ms
    acceleration := 0
    position := p.initialPosition
    curveLength := p.pathLength
    laneIndex := p.laneIndex
    laneChange := none
    state := CarState.DRIVING }

/-- The condition this.laneChange?.retainSpeed of part_001 line 140. -/
def Car.retainActive (c : Car) : Bool :=
  match c.laneChange with
  | some lc => lc.retainSpeed
  | none => false

/-- Car.computeAcceleration (part_001 lines 139-164).  A `none` gap models the
Infinity passed for a sole occupant; Number.isFinite(gap) is false exactly
then, so the interaction term is dropped. -/
def Car.computeAcceleration (c : Car) (gap : Option ℝ) (deltaSpeed : ℝ) : ℝ :=
  if c.retainActive then 0
  else
    let freeRoadTerm := (c.speed / max c.maxSpeed (1 / 1000)) ^ 4
    let desiredGap0 := max c.minGap (c.distanceGap + c.speed * c.safeTimeHeadway)
    let desiredGap :=
      if 0 < deltaSpeed ∧ 0 < c.maxAcceleration ∧ 0 < c.comfortableDeceleration then
        desiredGap0 +
          max 0 (c.speed * deltaSpeed /
            (2 * Real.sqrt (c.maxAcceleration * c.comfortableDeceleration)))
      else desiredGap0
    let interactionTerm :=
      match gap with
      | none => 0
      | some g => (desiredGap / max c.minGap g) ^ 2
    c.maxAcceleration * (1 - freeRoadTerm - interactionTerm)

/-- The frozen speed that Car.integrate re-imposes, when a retain-speed lane
change with a non-null desiredSpeed is active (part_001 line 171). -/
def Car.retainFrozenSpeed (c : Car) : Option ℝ :=
  match c.laneChange with
  | some lc => if lc.retainSpeed then lc.desiredSpeed else none
  | none => none

/-- Car.integrate (part_001 lines 167-182): store the acceleration, either
freeze the speed at the transition's desiredSpeed or clamp the Euler-updated
speed into [0, maxSpeed], advance the position with the new speed and wrap it
with euclideanModulo, then updatePose (of which only the curveLength refresh is
simulation state). -/
def Car.integrate (c : Car) (acceleration deltaTime trackLength : ℝ) : Car :=
  let newSpeed :=
    match c.retainFrozenSpeed with
    | some s => s
    | none => clamp (c.speed + acceleration * deltaTime) 0 c.maxSpeed
  { c with
    acceleration := acceleration
    speed := newSpeed
    position := emod (c.position + newSpeed * deltaTime) trackLength
    curveLength := if 0 < trackLength then trackLength else c.curveLength }

/-- Car.setPathLength (part_001 lines 132-134). -/
def Car.setPathLength (c : Car) (length : ℝ) : Car :=
  { c with curveLength := length }

/-- Car.setSpeed (part_001 lines 231-233). -/
def Car.setSpeed (c : Car) (speed : ℝ) : Car :=
  { c with speed := clamp speed 0 c.maxSpeed }

/-- Car.setMaxSpeed (part_001 lines 235-238): floors the new maxSpeed at 0.1
and caps the current speed at it. -/
def Car.setMaxSpeed (c : Car) (speed : ℝ) : Car :=
  let ms := max (1 / 10) speed
  { c with maxSpeed := ms, speed := min c.speed ms }

/-- Car.setMaxAcceleration (part_001 lines 240-244): ignores values that are
not a positive number. -/
def Car.setMaxAcceleration (c : Car) (value : ℝ) : Car :=
  if 0 < value then { c with maxAcceleration := value } else c

/-- Car.setComfortableDeceleration (part_001 lines 246-250). -/
def Car.setComfortableDeceleration (c : Car) (value : ℝ) : Car :=
  if 0 < value then { c with comfortableDeceleration := value } else c

/-- Car.setSafeTimeHeadway (part_001 lines 252-256): ignores negative values. -/
def Car.setSafeTimeHeadway (c : Car) (value : ℝ) : Car :=
  if 0 ≤ value then { c with safeTimeHeadway := value } else c

/-- Car.setDistanceGap (part_001 lines 258-262). -/
def Car.setDistanceGap (c : Car) (value : ℝ) : Car :=
  if 0 < value then { c with distanceGap := value } else c

/-- Comparator of Lane.sortAndLink (Lane.js line 197): ascending car position. -/
def carLE (a b : Car) : Bool := a.position ≤ b.position

/-- The sort step of Lane.sortAndLink (Lane.js lines 191-207).  The next and
prev links are the array neighbours (i ± 1) mod n of the sorted array, so they
are recovered below by indexing rather than stored. -/
def sortCars (l : List Car) : List Car := l.mergeSort carLE

/-- Phase 1 of Lane.update (Lane.js lines 162-182) for one car paired with its
leader node.next.car: with a single node the gap is Infinity and deltaSpeed 0;
otherwise the raw position difference is wrapped by adding totalLength when it
is ≤ 0, shrunk by both half lengths, clamped at 0, and fed to the IDM together
with speed - leader.speed. -/
def phase1 (totalLength : ℝ) (nodeCount : ℕ) (node : Car × Car) : ℝ :=
  let car := node.1
  let leader := node.2
  if nodeCount = 1 then car.computeAcceleration none 0
  else
    let gap0 := leader.position - car.position
    let gap1 := if gap0 ≤ 0 then gap0 + totalLength else gap0
    let gap := max 0 (gap1 - car.halfLength - leader.halfLength)
    car.computeAcceleration (some gap) (car.speed - leader.speed)

/-- Lane.update (Lane.js lines 147-188; the composite-lane copy at Curve.js
lines 232-277 is the same loop).  totalLength is the freshly recomputed curve
length.  The loop over the circular list is rendered functionally: after the
sort, node i's leader node.next.car is element (i+1) mod n, i.e. element i of
the list rotated by one.  All accelerations are computed first from the sorted
pre-tick snapshot, then every car is integrated with its stored value. -/
def laneUpdate (cars : List Car) (totalLength deltaTime : ℝ) : List Car :=
  if cars.isEmpty then cars
  else
    let withLength := cars.map fun c => c.setPathLength totalLength
    let sorted := sortCars withLength
    let accelerations := (sorted.zip (sorted.rotate 1)).map (phase1 totalLength sorted.length)
    (sorted.zip accelerations).map fun ca => ca.1.integrate ca.2 deltaTime totalLength

/-- Lane as seen by the lane-change logic: the geometry-provider interface
(getPointAt, getTangentAt, getLength), the closed flag, and the cars it owns.
Membership is tracked by car ids, standing for the object references the lane
array holds; the per-tick sortAndLink permutes that array without changing
membership.  The Road-aware Lane class holding `findNeighbors` and `closed` is
not among the sources, so the membership operations follow the in-source
composite Lane (Curve.js lines 211-230). -/
structure Lane where
  pointAt : ℝ → Vec3
  tangentAt : ℝ → Vec3
  totalLength : ℝ
  closed : Bool
  carIds : List ℕ

/-- Lane.removeCar (Curve.js lines 225-230): findIndex by object identity and
splice; membership-wise this erases the first occurrence of the car. -/
def Lane.removeCar (l : Lane) (car : Car) : Lane :=
  { l with carIds := l.carIds.erase car.id }

/-- Lane.addCar (Curve.js lines 211-223): a no-op when the lane has no length;
otherwise the car position is wrapped into [0, totalLength), its cached path
length refreshed, and the car inserted into the lane's array.  Returns the
updated lane together with the mutated car. -/
def Lane.addCar (l : Lane) (car : Car) (initialPosition : ℝ) : Lane × Car :=
  if l.totalLength = 0 then (l, car)
  else
    ({ l with carIds := l.carIds ++ [car.id] },
     { car with
        curveLength := l.totalLength
        position := emod initialPosition l.totalLength })

/-- Car.setLaneIndex (part_001 lines 450-459): records the index and re-points
path at road.getLane(index), refreshing the cached path length; `lane` is that
looked-up lane. -/
def Car.setLaneIndex (c : Car) (index : ℤ) (lane : Lane) : Car :=
  { c with laneIndex := index, curveLength := lane.totalLength }

/-- Car.startLaneChange (part_001 lines 268-289): a no-op while MERGING;
otherwise builds the cubic Bezier from the source and target points/tangents
and installs the MERGING transition record. -/
def Car.startLaneChange (c : Car) (fromLane : Lane) (fromProgress : ℝ)
    (targetLane : Lane) (targetProgress targetDistance duration : ℝ)
    (retainSpeed : Bool) : Car :=
  if c.state = CarState.MERGING then c
  else
    let startPoint := fromLane.pointAt fromProgress
    let endPoint := targetLane.pointAt targetProgress
    let startDir := (fromLane.tangentAt fromProgress).normalize
    let endDir := (targetLane.tangentAt targetProgress).normalize
    let span := endPoint.distanceTo startPoint
    let forward := max 5 (span * (1 / 2))
    let control1 := startPoint.addScaled startDir forward
    let control2 := endPoint.addScaled endDir (-(forward * (1 / 2)))
    { c with
      laneChange := some
        { duration := duration
          elapsed := 0
          progress := 0
          startPosition := c.position
          targetDistance := max 1 targetDistance
          curve := ⟨startPoint, control1, control2, endPoint⟩
          retainSpeed := retainSpeed
          desiredSpeed := if retainSpeed then some c.speed else none }
      state := CarState.MERGING }

/-- Car.updateLaneChange (part_001 lines 291-311).  laneLength stands for
this.path?.getLength() ?? 0, the length of the car's current lane.  Progress
advances by wrapped distance travelled when the lane has positive length, by
elapsed time over duration otherwise; once it reaches 1 the retained speed (if
any) is re-imposed, the transition is cleared and the state returns to
DRIVING.  Nothing else on the car, and no lane, is touched. -/
def Car.updateLaneChange (c : Car) (laneLength deltaTime : ℝ) : Car :=
  match c.laneChange with
  | none => c
  | some st =>
    let st' :=
      if 0 < laneLength then
        { st with
          progress := min 1 (emod (c.position - st.startPosition) laneLength / st.targetDistance) }
      else
        { st with
          elapsed := st.elapsed + deltaTime
          progress := min 1 ((st.elapsed + deltaTime) / st.duration) }
    if 1 ≤ st'.progress then
      let newSpeed :=
        match st'.retainSpeed, st'.desiredSpeed with
        | true, some s => s
        | _, _ => c.speed
      { c with speed := newSpeed, laneChange := none, state := CarState.DRIVING }
    else { c with laneChange := some st' }

/-- The neighbors record produced by Lane.findNeighbors and consumed by
Car.isLaneChangeSafe: the car ahead of the projected merge point with its
distance, and the car behind with its distance. -/
structure Neighbors where
  front : Option Car
  frontDistance : ℝ
  back : Option Car
  backDistance : ℝ

/-- Result object of Car.isLaneChangeSafe (part_001 lines 396-399). -/
structure SafetyResult where
  allowed : Prop
  maintainSpeed : Prop

/-- Car.isLaneChangeSafe (part_001 lines 382-400): the front requirement is the
merging car's own distanceGap + safeTimeHeadway·speed + length; the follower
requirement is half the merging car's length plus the follower's own
distanceGap + safeTimeHeadway·speed + length; each side passes when there is no
neighbor or its distance strictly exceeds the requirement.  maintainSpeed also
demands the front neighbor (if any) be no slower than this car minus 0.5. -/
def Car.isLaneChangeSafe (c : Car) (neighbors : Neighbors) : SafetyResult :=
  let frontRequirement := c.distanceGap + c.safeTimeHeadway * c.speed + c.length
  let frontClear := neighbors.front = none ∨ neighbors.frontDistance > frontRequirement
  let followerRequirement :=
    c.length * (1 / 2) +
      match neighbors.back with
      | some follower =>
          follower.distanceGap + follower.safeTimeHeadway * follower.speed + follower.length
      | none => 0
  let backClear := neighbors.back = none ∨ neighbors.backDistance > followerRequirement
  { allowed := frontClear ∧ backClear
    maintainSpeed := frontClear ∧ backClear ∧
      match neighbors.front with
      | some front => front.speed ≥ c.speed - 1 / 2
      | none => True }

/-- Car.performAutonomousLaneChange (part_001 lines 402-432), on the branch
where the car has a current lane (attemptAutonomousLaneChange guarantees it and
that the car is not MERGING).  Returns the mutated car, source lane and target
lane.  The open-lane early return leaves everything untouched; otherwise the
car is removed from the source lane, added to the target lane at
targetPosition, re-indexed, and only then does startLaneChange install the
MERGING transition toward endPosition. -/
def Car.performAutonomousLaneChange (car : Car) (currentLane targetLane : Lane)
    (targetIndex : ℤ) (targetPosition progress : ℝ) (retainSpeed : Bool) :
    Car × Lane × Lane :=
  let fromLength := currentLane.totalLength
  let fromProgress := if 0 < fromLength then car.position / fromLength else 0
  let targetLength := targetLane.totalLength
  let duration : ℝ := 1
  let predictedDistance :=
    max 5 (car.speed * duration + (1 / 2) * car.maxAcceleration * duration * duration)
  let targetDistance :=
    min predictedDistance (if 0 < targetLength then targetLength * (1 / 2) else predictedDistance)
  let endPosition :=
    if 0 < targetLength then
      if targetLane.closed then emod (targetPosition + targetDistance) targetLength
      else min (targetPosition + targetDistance) targetLength
    else targetPosition
  if 0 < targetLength ∧ targetLane.closed = false ∧ targetLength ≤ endPosition then
    (car, currentLane, targetLane)
  else
    let src := currentLane.removeCar car
    let added := targetLane.addCar car targetPosition
    let car1 := (added.2.setLaneIndex targetIndex targetLane).setPathLength targetLane.totalLength
    let car2 := car1.startLaneChange currentLane fromProgress targetLane
      (endPosition / targetLength) targetDistance duration retainSpeed
    (car2, src, added.1)

/-- Concrete car built through the constructor with the default configuration of
part_001 (length 4, maxSpeed 12, maxAcceleration 3, comfortableDeceleration 2,
safeTimeHeadway 1.5, minGap 1, distanceGap 3) on a 100 m lane. -/
def sampleCar : Car :=
  mkCar
    { id := 0
      laneIndex := 0
      length := 4
      width := 2
      height := 1
      maxSpeed := 12
      maxAcceleration := 3
      comfortableDeceleration := 2
      safeTimeHeadway := 3 / 2
      minGap := 1
      distanceGap := 3
      initialSpeed := 0
      initialPosition := 0
      pathLength := 100 }

/-- Degenerate Bezier polygon used by concrete transition records. -/
def bezier0 : BezierCurve := ⟨⟨0, 0, 0⟩, ⟨0, 0, 0⟩, ⟨0, 0, 0⟩, ⟨0, 0, 0⟩⟩

/-- Concrete retain-speed transition whose frozen desiredSpeed is 10. -/
def retainLC : LaneChangeState :=
  { duration := 1
    elapsed := 0
    progress := 0
    startPosition := 0
    targetDistance := 5
    curve := bezier0
    retainSpeed := true
    desiredSpeed := some 10 }

/-- Concrete MERGING car mid lane change: its frozen speed is 10 while its
maxSpeed has been lowered to 5 (as a live setMaxSpeed edit produces). -/
def cRetain : Car :=
  { id := 2
    length := 4
    width := 2
    height := 1
    halfLength := 2
    maxSpeed := 5
    maxAcceleration := 3
    comfortableDeceleration := 2
    safeTimeHeadway := 3 / 2
    minGap := 1
    distanceGap := 3
    speed := 5
    acceleration := 0
    position := 0
    curveLength := 100
    laneIndex := 0
    laneChange := some retainLC
    state := CarState.MERGING }

/-- Concrete follower with the parameters of the spec's safety-gate example:
distanceGap 3, safeTimeHeadway 1, speed 5, length 4. -/
def followerCar : Car :=
  { id := 3
    length := 4
    width := 2
    height := 1
    halfLength := 2
    maxSpeed := 12
    maxAcceleration := 3
    comfortableDeceleration := 2
    safeTimeHeadway := 1
    minGap := 1
    distanceGap := 3
    speed := 5
    acceleration := 0
    position := 0
    curveLength := 100
    laneIndex := 0
    laneChange := none
    state := CarState.DRIVING }

/-- Neighbor query answer with the follower 1 m behind the merge point and an
empty road ahead. -/
def badNeighbors : Neighbors :=
  { front := none
    frontDistance := 0
    back := some followerCar
    backDistance := 1 }

/-- Concrete DRIVING car at position 10 used in the order-independence and
phase-1 instances. -/
def carA : Car :=
  { id := 10
    length := 4
    width := 2
    height := 1
    halfLength := 2
    maxSpeed := 12
    maxAcceleration := 3
    comfortableDeceleration := 2
    safeTimeHeadway := 3 / 2
    minGap := 1
    distanceGap := 3
    speed := 5
    acceleration := 0
    position := 10
    curveLength := 100
    laneIndex := 0
    laneChange := none
    state := CarState.DRIVING }

/-- Concrete DRIVING car at position 30. -/
def carB : Car := { carA with id := 11, position := 30, speed := 7 }

/-- Concrete DRIVING car at position 50. -/
def carC : Car := { carA with id := 12, position := 50, speed := 3 }

/-- Concrete closed 100 m source lane holding only car id 7, with trivial
geometry. -/
def srcLane : Lane :=
  { pointAt := fun _ => ⟨0, 0, 0⟩
    tangentAt := fun _ => ⟨1, 0, 0⟩
    totalLength := 100
    closed := true
    carIds := [7] }

/-- Concrete closed 100 m target lane holding no car. -/
def tgtLane : Lane := { srcLane with carIds := [] }

/-- Concrete DRIVING car, id 7, member of srcLane, about to change lanes. -/
def c6car : Car := { carA with id := 7, position := 40, speed := 10 }

/-- Concrete non-retaining transition that started at position 0 with
targetDistance 5. -/
def lcMid : LaneChangeState := { retainLC with retainSpeed := false, desiredSpeed := none }

/-- Concrete MERGING car that has travelled 6 m of the 5 m transition, so its
progress computes to 1 on the next updateLaneChange. -/
def cMid : Car := { c6car with position := 6, laneChange := some lcMid, state := CarState.MERGING }

/-- Helper: clamp into [lo, x-capped-at-hi] is at least lo. -/
theorem clamp_ge_lo (value lo hi : ℝ) : lo ≤ clamp value lo hi := le_max_left _ _

/-- Helper: clamp is at most hi when the interval is nonempty. -/
theorem clamp_le_hi (value lo hi : ℝ) (h : lo ≤ hi) : clamp value lo hi ≤ hi :=
  max_le h (min_le_left _ _)

/-- Helper: the euclidean remainder as a scaled fractional part. -/
theorem emod_eq_fract (n m : ℝ) (hm : m ≠ 0) : emod n m = m * Int.fract (n / m) := by
  unfold emod Int.fract
  rw [mul_sub, mul_div_cancel₀ _ hm]

/-- Helper: the euclidean remainder is non-negative for a positive modulus. -/
theorem emod_nonneg_of_pos (n m : ℝ) (hm : 0 < m) : 0 ≤ emod n m := by
  rw [emod_eq_fract n m hm.ne.symm]
  exact mul_nonneg hm.le (Int.fract_nonneg _)

/-- Helper: the euclidean remainder is below a positive modulus. -/
theorem emod_lt_of_pos (n m : ℝ) (hm : 0 < m) : emod n m < m := by
  rw [emod_eq_fract n m hm.ne.symm]
  calc m * Int.fract (n / m) < m * 1 := by
        exact mul_lt_mul_of_pos_left (Int.fract_lt_one _) hm
    _ = m := mul_one m

/-- Helper: a value already inside [0, m) is its own euclidean remainder. -/
theorem emod_eq_self (n m : ℝ) (h0 : 0 ≤ n) (h1 : n < m) : emod n m = n := by
  have hm : 0 < m := lt_of_le_of_lt h0 h1
  have hfloor : ⌊n / m⌋ = 0 := by
    rw [Int.floor_eq_zero_iff]
    exact ⟨div_nonneg h0 hm.le, by rwa [div_lt_one hm]⟩
  unfold emod
  rw [hfloor]
  push_cast
  ring

/-- Helper: one period up for values in (-m, 0). -/
theorem emod_of_neg (n m : ℝ) (hm : 0 < m) (h0 : -m < n) (h1 : n < 0) :
    emod n m = n + m := by
  have hfloor : ⌊n / m⌋ = -1 := by
    rw [Int.floor_eq_iff]
    constructor
    · push_cast
      rw [neg_le, ← neg_div, div_le_one hm]
      linarith
    · push_cast
      have : n / m < 0 := div_neg_of_neg_of_pos h1 hm
      linarith
  unfold emod
  rw [hfloor]
  push_cast
  ring

/-- Claim C5: for every closed lane of length L > 0 and every starting state,
integrate leaves the vehicle's position in the half-open interval [0, L). -/
theorem integrate_position_in_range (c : Car) (a dt L : ℝ) (hL : 0 < L) :
    0 ≤ (c.integrate a dt L).position ∧ (c.integrate a dt L).position < L := by
  simp only [Car.integrate]
  exact ⟨emod_nonneg_of_pos _ _ hL, emod_lt_of_pos _ _ hL⟩

/-- Witness for C5 at the default car, a unit acceleration, a 60 Hz step and a
100 m lane. -/
theorem integrate_position_in_range_witness :
    0 ≤ (sampleCar.integrate 1 (1 / 60) 100).position ∧
      (sampleCar.integrate 1 (1 / 60) 100).position < 100 :=
  integrate_position_in_range sampleCar 1 (1 / 60) 100 (by norm_num)

/-- Counterexample to claim C2: cRetain satisfies 0 ≤ speed ≤ maxSpeed, yet one
integrate step under its retain-speed transition forces speed to the frozen 10,
above its maxSpeed of 5: the speed bound is not preserved by integrate. -/
theorem speed_bound_counterexample :
    (0 ≤ cRetain.speed ∧ cRetain.speed ≤ cRetain.maxSpeed) ∧
      ¬ (cRetain.integrate 0 (1 / 60) 100).speed ≤ (cRetain.integrate 0 (1 / 60) 100).maxSpeed := by
  refine ⟨⟨by norm_num [cRetain], by norm_num [cRetain]⟩, ?_⟩
  simp only [Car.integrate, Car.retainFrozenSpeed, cRetain, retainLC]
  norm_num

/-- Claim C2 as amended: 0 ≤ speed ≤ maxSpeed holds after construction and is
preserved by setSpeed (for a non-negative maxSpeed), by setMaxSpeed (for a
non-negative speed), and by integrate provided any active retain-speed frozen
speed itself lies within [0, maxSpeed]; without that proviso the retain branch
can re-impose a frozen speed above a maxSpeed that was lowered mid-transition. -/
theorem speed_invariant_amended :
    (∀ p : CarParams, 0 ≤ (mkCar p).speed ∧ (mkCar p).speed ≤ (mkCar p).maxSpeed) ∧
    (∀ (c : Car) (v : ℝ), 0 ≤ c.maxSpeed →
      0 ≤ (c.setSpeed v).speed ∧ (c.setSpeed v).speed ≤ (c.setSpeed v).maxSpeed) ∧
    (∀ (c : Car) (v : ℝ), 0 ≤ c.speed →
      0 ≤ (c.setMaxSpeed v).speed ∧ (c.setMaxSpeed v).speed ≤ (c.setMaxSpeed v).maxSpeed) ∧
    (∀ (c : Car) (a dt L : ℝ), 0 ≤ c.speed → c.speed ≤ c.maxSpeed →
      (∀ s, c.retainFrozenSpeed = some s → 0 ≤ s ∧ s ≤ c.maxSpeed) →
      0 ≤ (c.integrate a dt L).speed ∧ (c.integrate a dt L).speed ≤ (c.integrate a dt L).maxSpeed) := by
  refine ⟨?_, ?_, ?_, ?_⟩
  · intro p
    simp only [mkCar]
    have hms : (0 : ℝ) ≤ max (1 / 10) p.maxSpeed := le_trans (by norm_num) (le_max_left _ _)
    exact ⟨clamp_ge_lo _ _ _, clamp_le_hi _ _ _ hms⟩
  · intro c v hM
    simp only [Car.setSpeed]
    exact ⟨clamp_ge_lo _ _ _, clamp_le_hi _ _ _ hM⟩
  · intro c v hs
    simp only [Car.setMaxSpeed]
    refine ⟨le_min hs (le_trans (by norm_num) (le_max_left _ _)), min_le_right _ _⟩
  · intro c a dt L hs0 hs1 hfrozen
    have hM : 0 ≤ c.maxSpeed := le_trans hs0 hs1
    simp only [Car.integrate]
    cases hfz : c.retainFrozenSpeed with
    | none => exact ⟨clamp_ge_lo _ _ _, clamp_le_hi _ _ _ hM⟩
    | some s => exact hfrozen s hfz

/-- Witness for the amended C2: each preserved operation instantiated at a
concrete car. -/
theorem speed_invariant_amended_witness :
    (0 ≤ sampleCar.speed ∧ sampleCar.speed ≤ sampleCar.maxSpeed) ∧
    (0 ≤ (carA.setSpeed 20).speed ∧ (carA.setSpeed 20).speed ≤ (carA.setSpeed 20).maxSpeed) ∧
    (0 ≤ (carA.setMaxSpeed 6).speed ∧ (carA.setMaxSpeed 6).speed ≤ (carA.setMaxSpeed 6).maxSpeed) ∧
    (0 ≤ (carA.integrate 3 (1 / 60) 100).speed ∧
      (carA.integrate 3 (1 / 60) 100).speed ≤ (carA.integrate 3 (1 / 60) 100).maxSpeed) := by
  refine ⟨speed_invariant_amended.1 _, ?_, ?_, ?_⟩
  · exact speed_invariant_amended.2.1 carA 20 (by norm_num [carA])
  · exact speed_invariant_amended.2.2.1 carA 6 (by norm_num [carA])
  · refine speed_invariant_amended.2.2.2 carA 3 (1 / 60) 100 (by norm_num [carA]) (by norm_num [carA]) ?_
    intro s hs
    simp [Car.retainFrozenSpeed, carA] at hs

/-- Counterexample to claim C9: setMaxSpeed does not ignore the out-of-range
value 0; it overwrites the previous maxSpeed of 12 with the floor 0.1. -/
theorem setters_counterexample :
    ¬ (sampleCar.setMaxSpeed 0).maxSpeed = sampleCar.maxSpeed := by
  simp only [Car.setMaxSpeed, sampleCar, mkCar]
  norm_num

/-- Claim C9 as amended: setMaxAcceleration, setComfortableDeceleration and
setDistanceGap silently ignore a value ≤ 0 and leave the car unchanged, whereas
setMaxSpeed instead clamps the new maxSpeed to the floor 0.1 and caps the
current speed at it. -/
theorem setters_ignore_invalid_amended (c : Car) (v : ℝ) (hv : v ≤ 0) :
    c.setMaxAcceleration v = c ∧ c.setComfortableDeceleration v = c ∧
    c.setDistanceGap v = c ∧
    (c.setMaxSpeed v).maxSpeed = 1 / 10 ∧ (c.setMaxSpeed v).speed = min c.speed (1 / 10) := by
  have h1 : ¬ (0 < v) := not_lt.mpr hv
  have h2 : max (1 / 10 : ℝ) v = 1 / 10 := max_eq_left (le_trans hv (by norm_num))
  refine ⟨?_, ?_, ?_, ?_, ?_⟩
  · simp [Car.setMaxAcceleration, h1]
  · simp [Car.setComfortableDeceleration, h1]
  · simp [Car.setDistanceGap, h1]
  · simp only [Car.setMaxSpeed]
    rw [h2]
  · simp only [Car.setMaxSpeed]
    rw [h2]

/-- Witness for the amended C9 at the value -1. -/
theorem setters_ignore_invalid_amended_witness :
    sampleCar.setMaxAcceleration (-1) = sampleCar ∧
    sampleCar.setComfortableDeceleration (-1) = sampleCar ∧
    sampleCar.setDistanceGap (-1) = sampleCar ∧
    (sampleCar.setMaxSpeed (-1)).maxSpeed = 1 / 10 ∧
    (sampleCar.setMaxSpeed (-1)).speed = min sampleCar.speed (1 / 10) :=
  setters_ignore_invalid_amended sampleCar (-1) (by norm_num)

/-- Claim C8: calling startLaneChange while already MERGING is a no-op: the car
record — state, transition, speed, position, lane index — is returned
unchanged. -/
theorem startLaneChange_noop_merging (c : Car) (fromLane targetLane : Lane)
    (fromProgress targetProgress targetDistance duration : ℝ) (retainSpeed : Bool)
    (h : c.state = CarState.MERGING) :
    c.startLaneChange fromLane fromProgress targetLane targetProgress targetDistance
      duration retainSpeed = c := by
  unfold Car.startLaneChange
  rw [if_pos h]

/-- Witness for C8 at the concrete MERGING car cRetain. -/
theorem startLaneChange_noop_merging_witness :
    cRetain.startLaneChange srcLane 0 tgtLane 0 10 1 false = cRetain :=
  startLaneChange_noop_merging cRetain srcLane tgtLane 0 0 10 1 false rfl

/-- Helper: a non-negative factor times one minus two non-negative terms stays
below the factor. -/
theorem mul_one_sub_sub_le (A f i : ℝ) (hf : 0 ≤ f) (hi : 0 ≤ i) (hA : 0 ≤ A) :
    A * (1 - f - i) ≤ A := by
  calc A * (1 - f - i) ≤ A * 1 := by
        apply mul_le_mul_of_nonneg_left _ hA
        linarith
    _ = A := mul_one A

/-- Claim C10: whenever maxAcceleration ≥ 0 and speed ≥ 0, computeAcceleration
returns at most maxAcceleration, for every finite or infinite gap and every
deltaSpeed: the free-road term and the interaction term are both non-negative,
and the retain-speed branch returns 0. -/
theorem computeAcceleration_le_max (c : Car) (gap : Option ℝ) (deltaSpeed : ℝ)
    (ha : 0 ≤ c.maxAcceleration) (hs : 0 ≤ c.speed) :
    c.computeAcceleration gap deltaSpeed ≤ c.maxAcceleration := by
  unfold Car.computeAcceleration
  by_cases hr : c.retainActive
  · simp [hr, ha]
  · simp only [hr, Bool.false_eq_true, if_false]
    apply mul_one_sub_sub_le
    · exact Even.pow_nonneg ⟨2, rfl⟩ _
    · cases gap with
      | none => exact le_refl 0
      | some g => exact sq_nonneg _
    · exact ha

/-- Witness for C10 at the default car with no leader. -/
theorem computeAcceleration_le_max_witness :
    sampleCar.computeAcceleration none 0 ≤ sampleCar.maxAcceleration :=
  computeAcceleration_le_max sampleCar none 0 (by norm_num [sampleCar, mkCar])
    (by norm_num [sampleCar, mkCar, clamp])

/-- Claim C4: outside a retain-speed transition, and for positive
maxAcceleration and comfortableDeceleration (as the setters maintain) and a
maxSpeed above the 1e-3 guard floor (as the constructor and setMaxSpeed
maintain), computeAcceleration on a finite gap returns
maxAcceleration·(1 − (speed/maxSpeed)^4 − (desiredGap/max(minGap, gap))^2) with
desiredGap = max(minGap, distanceGap + speed·safeTimeHeadway) plus the braking
term max(0, speed·deltaSpeed/(2·sqrt(maxAcceleration·comfortableDeceleration)))
added exactly when deltaSpeed > 0; on a non-finite gap the interaction term is
dropped. -/
theorem computeAcceleration_formula (c : Car) (g deltaSpeed : ℝ)
    (hr : c.retainActive = false)
    (ha : 0 < c.maxAcceleration) (hb : 0 < c.comfortableDeceleration)
    (hm : (1 : ℝ) / 1000 ≤ c.maxSpeed) :
    (c.computeAcceleration (some g) deltaSpeed =
      c.maxAcceleration * (1 - (c.speed / c.maxSpeed) ^ 4 -
        ((max c.minGap (c.distanceGap + c.speed * c.safeTimeHeadway) +
          (if 0 < deltaSpeed then
            max 0 (c.speed * deltaSpeed /
              (2 * Real.sqrt (c.maxAcceleration * c.comfortableDeceleration)))
          else 0)) / max c.minGap g) ^ 2)) ∧
    (c.computeAcceleration none deltaSpeed =
      c.maxAcceleration * (1 - (c.speed / c.maxSpeed) ^ 4)) := by
  have hmax : max c.maxSpeed (1 / 1000) = c.maxSpeed := max_eq_left hm
  constructor
  · unfold Car.computeAcceleration
    simp only [hr, Bool.false_eq_true, if_false, hmax]
    by_cases hds : 0 < deltaSpeed
    · rw [if_pos ⟨hds, ha, hb⟩, if_pos hds]
    · rw [if_neg (by tauto), if_neg hds, add_zero]
  · unfold Car.computeAcceleration
    simp only [hr, Bool.false_eq_true, if_false, hmax]
    ring

/-- Witness for C4: the no-leader conclusion at the default car with closing
speed 2. -/
theorem computeAcceleration_formula_witness :
    sampleCar.computeAcceleration none 2 =
      sampleCar.maxAcceleration * (1 - (sampleCar.speed / sampleCar.maxSpeed) ^ 4) :=
  (computeAcceleration_formula sampleCar 7 2 rfl (by norm_num [sampleCar, mkCar])
    (by norm_num [sampleCar, mkCar]) (by norm_num [sampleCar, mkCar])).2

/-- Claim C7: with a follower present, isLaneChangeSafe allows the change iff
the front is clear and the follower's distance strictly exceeds half the
merging car's length plus the follower's own distanceGap + safeTimeHeadway·speed
+ length; in particular a follower 1 m back with distanceGap 3, safeTimeHeadway
1, speed 5 and length 4 makes the default car's lane change disallowed. -/
theorem isLaneChangeSafe_spec :
    (∀ (c : Car) (n : Neighbors) (f : Car), n.back = some f →
      ((c.isLaneChangeSafe n).allowed ↔
        ((n.front = none ∨
            n.frontDistance > c.distanceGap + c.safeTimeHeadway * c.speed + c.length) ∧
          n.backDistance >
            c.length * (1 / 2) +
              (f.distanceGap + f.safeTimeHeadway * f.speed + f.length)))) ∧
    ¬ (sampleCar.isLaneChangeSafe badNeighbors).allowed := by
  constructor
  · intro c n f hf
    simp only [Car.isLaneChangeSafe, hf]
    constructor
    · rintro ⟨hfront, hback⟩
      rcases hback with h | h
      · exact absurd h (by simp)
      · exact ⟨hfront, h⟩
    · rintro ⟨hfront, hback⟩
      exact ⟨hfront, Or.inr hback⟩
  · simp only [Car.isLaneChangeSafe, badNeighbors, followerCar, sampleCar, mkCar]
    rintro ⟨-, hback⟩
    rcases hback with h | h
    · exact absurd h (by simp)
    · norm_num at h

/-- Witness for C7: the follower-present characterization instantiated at the
default car and the concrete follower query. -/
theorem isLaneChangeSafe_spec_witness :
    (sampleCar.isLaneChangeSafe badNeighbors).allowed ↔
      ((badNeighbors.front = none ∨
          badNeighbors.frontDistance >
            sampleCar.distanceGap + sampleCar.safeTimeHeadway * sampleCar.speed +
              sampleCar.length) ∧
        badNeighbors.backDistance >
          sampleCar.length * (1 / 2) +
            (followerCar.distanceGap + followerCar.safeTimeHeadway * followerCar.speed +
              followerCar.length)) :=
  isLaneChangeSafe_spec.1 sampleCar badNeighbors followerCar rfl

/-- Claim C3: in phase 1 of Lane.update a sole occupant gets
computeAcceleration(+∞, 0); otherwise, for in-range distinct positions, the gap
fed to the IDM is the wrapped distance (next.position − position) mod
totalLength minus both half lengths, clamped at 0, with deltaSpeed = speed −
next.speed. -/
theorem phase1_gap_spec (L : ℝ) (car leader : Car) (n : ℕ) (hn : n ≠ 1)
    (hL : 0 < L) (h1 : 0 ≤ car.position) (h2 : car.position < L)
    (h3 : 0 ≤ leader.position) (h4 : leader.position < L)
    (hne : car.position ≠ leader.position) :
    phase1 L n (car, leader) =
      car.computeAcceleration
        (some (max 0 (emod (leader.position - car.position) L -
          (car.halfLength + leader.halfLength))))
        (car.speed - leader.speed) ∧
    phase1 L 1 (car, leader) = car.computeAcceleration none 0 := by
  have key : (if leader.position - car.position ≤ 0
      then leader.position - car.position + L
      else leader.position - car.position) =
      emod (leader.position - car.position) L := by
    by_cases hd : leader.position - car.position ≤ 0
    · rw [if_pos hd]
      have hlt : leader.position - car.position < 0 :=
        lt_of_le_of_ne hd (sub_ne_zero.mpr fun h => hne h.symm)
      rw [emod_of_neg _ _ hL (by linarith) hlt]
    · rw [if_neg hd]
      push_neg at hd
      rw [emod_eq_self _ _ hd.le (by linarith)]
  constructor
  · unfold phase1
    rw [if_neg hn]
    simp only [key, sub_sub]
  · unfold phase1
    simp

/-- Witness for C3 at cars carA (position 10) and carB (position 30) on a 100 m
lane holding two vehicles. -/
theorem phase1_gap_spec_witness :
    (phase1 100 2 (carA, carB) =
      carA.computeAcceleration
        (some (max 0 (emod (carB.position - carA.position) 100 -
          (carA.halfLength + carB.halfLength))))
        (carA.speed - carB.speed)) ∧
    phase1 100 1 (carA, carB) = carA.computeAcceleration none 0 :=
  phase1_gap_spec 100 carA carB 2 (by norm_num) (by norm_num)
    (by norm_num [carA]) (by norm_num [carA]) (by norm_num [carB, carA])
    (by norm_num [carB, carA]) (by norm_num [carA, carB])

/-- Helper: the sortAndLink comparator is transitive. -/
theorem carLE_trans (a b c : Car) (h1 : carLE a b = true) (h2 : carLE b c = true) :
    carLE a c = true := by
  simp only [carLE, decide_eq_true_eq] at h1 h2 ⊢
  exact le_trans h1 h2

/-- Helper: the sortAndLink comparator is total. -/
theorem carLE_total (a b : Car) : (carLE a b || carLE b a) = true := by
  rcases le_total a.position b.position with h | h
  · simp [carLE, h]
  · simp [carLE, h]

/-- Helper: with pairwise-distinct positions the sorted car order is unique:
sorting any permutation of the array yields the same list. -/
theorem sortCars_eq_of_perm (m1 m2 : List Car) (hperm : m1.Perm m2)
    (hdist : m1.Pairwise fun a b => a.position ≠ b.position) :
    sortCars m1 = sortCars m2 := by
  haveI : IsAntisymm Car fun a b => a.position < b.position :=
    ⟨fun a b h h' => absurd (h.trans h') (lt_irrefl _)⟩
  have hp : (sortCars m1).Perm (sortCars m2) :=
    ((List.mergeSort_perm m1 carLE).trans hperm).trans (List.mergeSort_perm m2 carLE).symm
  have hs1 : (sortCars m1).Pairwise fun a b => carLE a b = true :=
    List.sorted_mergeSort carLE_trans carLE_total m1
  have hs2 : (sortCars m2).Pairwise fun a b => carLE a b = true :=
    List.sorted_mergeSort carLE_trans carLE_total m2
  have hd1 : (sortCars m1).Pairwise fun a b => a.position ≠ b.position :=
    ((List.mergeSort_perm m1 carLE).pairwise_iff fun h => Ne.symm h).mpr hdist
  have hd2 : (sortCars m2).Pairwise fun a b => a.position ≠ b.position :=
    (hp.pairwise_iff fun h => Ne.symm h).mp hd1
  have strict : ∀ {l : List Car}, (l.Pairwise fun a b => carLE a b = true) →
      (l.Pairwise fun a b => a.position ≠ b.position) →
      l.Pairwise fun a b => a.position < b.position := by
    intro l hle hne
    refine (hle.and hne).imp ?_
    rintro a b ⟨hab, hne'⟩
    simp only [carLE, decide_eq_true_eq] at hab
    exact lt_of_le_of_ne hab hne'
  exact List.eq_of_perm_of_sorted hp (strict hs1 hd1) (strict hs2 hd2)

/-- Claim C1: on a closed lane with pairwise-distinct vehicle positions, the
tick result of Lane.update is independent of the internal array order: for any
permutation of the vehicle array, the post-tick list of vehicles — each with
its post-tick speed and position — is identical, because phase 1 computes every
acceleration from the sorted pre-tick snapshot before phase 2 integrates
anyone. -/
theorem laneUpdate_order_independent (l1 l2 : List Car) (L dt : ℝ)
    (hperm : l1.Perm l2)
    (hdist : l1.Pairwise fun a b => a.position ≠ b.position) :
    laneUpdate l1 L dt = laneUpdate l2 L dt := by
  have hkey : sortCars (l1.map fun c => c.setPathLength L) =
      sortCars (l2.map fun c => c.setPathLength L) := by
    apply sortCars_eq_of_perm _ _ (hperm.map _)
    rw [List.pairwise_map]
    exact hdist
  rcases l1 with _ | ⟨a, t⟩
  · have h2 : l2 = [] := List.Perm.eq_nil hperm.symm
    subst h2
    rfl
  · rcases l2 with _ | ⟨b, u⟩
    · exact absurd (List.Perm.eq_nil hperm) (by simp)
    · simp only [laneUpdate, List.isEmpty_cons, Bool.false_eq_true, if_false]
      rw [hkey]

/-- Witness for C1: three cars at positions 10, 30, 50 updated from two
different array orders. -/
theorem laneUpdate_order_independent_witness :
    laneUpdate [carA, carB, carC] 100 (1 / 60) = laneUpdate [carC, carA, carB] 100 (1 / 60) :=
  laneUpdate_order_independent [carA, carB, carC] [carC, carA, carB] 100 (1 / 60)
    (@List.perm_append_comm Car [carA, carB] [carC])
    (by norm_num [List.pairwise_cons, carA, carB, carC])

/-- Counterexample to claim C6: immediately after performAutonomousLaneChange
the transition has only just begun (progress 0, state MERGING), yet the source
lane has already lost the vehicle and the target lane already holds it — lane
membership is transferred at initiation, so the commit step at progress 1 has
nothing to detach or attach. -/
theorem laneChange_commit_counterexample :
    (c6car.performAutonomousLaneChange srcLane tgtLane 1 40 0 false).1.state =
      CarState.MERGING ∧
    ((c6car.performAutonomousLaneChange srcLane tgtLane 1 40 0 false).1.laneChange.map
      fun lc => lc.progress) = some 0 ∧
    (c6car.performAutonomousLaneChange srcLane tgtLane 1 40 0 false).2.1.carIds = [] ∧
    (c6car.performAutonomousLaneChange srcLane tgtLane 1 40 0 false).2.2.carIds = [7] := by
  have hDM : ¬ (CarState.DRIVING = CarState.MERGING) := by simp
  norm_num [Car.performAutonomousLaneChange, Lane.removeCar, Lane.addCar, Car.setLaneIndex,
    Car.setPathLength, Car.startLaneChange, c6car, carA, srcLane, tgtLane, hDM]

/-- Claim C6 as amended: lane membership moves at initiation, not at commit —
performAutonomousLaneChange (toward a closed target lane of positive length,
from a DRIVING car) removes the car from the source lane's array, appends it to
the target lane's array at the wrapped targetPosition, stores the target lane
index, and enters MERGING; the commit step of updateLaneChange, once the
computed progress reaches 1, sets state = DRIVING and clears the transition
while leaving position, lane index, and both lanes' membership untouched (the
car already drives on the target lane, so subsequent gap computations already
use the target lane's neighbor set throughout the merge). -/
theorem laneChange_membership_amended :
    (∀ (car : Car) (src tgt : Lane) (i : ℤ) (tpos prog : ℝ) (rs : Bool),
      car.state = CarState.DRIVING → tgt.closed = true → 0 < tgt.totalLength →
      ((car.performAutonomousLaneChange src tgt i tpos prog rs).1.state =
          CarState.MERGING ∧
        (car.performAutonomousLaneChange src tgt i tpos prog rs).2.1.carIds =
          src.carIds.erase car.id ∧
        (car.performAutonomousLaneChange src tgt i tpos prog rs).2.2.carIds =
          tgt.carIds ++ [car.id] ∧
        (car.performAutonomousLaneChange src tgt i tpos prog rs).1.position =
          emod tpos tgt.totalLength ∧
        (car.performAutonomousLaneChange src tgt i tpos prog rs).1.laneIndex = i)) ∧
    (∀ (c : Car) (laneLength dt : ℝ) (st : LaneChangeState),
      c.laneChange = some st → 0 < laneLength →
      1 ≤ emod (c.position - st.startPosition) laneLength / st.targetDistance →
      ((c.updateLaneChange laneLength dt).state = CarState.DRIVING ∧
        (c.updateLaneChange laneLength dt).laneChange = none ∧
        (c.updateLaneChange laneLength dt).position = c.position ∧
        (c.updateLaneChange laneLength dt).laneIndex = c.laneIndex)) := by
  constructor
  · intro car src tgt i tpos prog rs hst hc h0
    have hne : ¬ tgt.totalLength = 0 := ne_of_gt h0
    simp [Car.performAutonomousLaneChange, Lane.removeCar, Lane.addCar, Car.setLaneIndex,
      Car.setPathLength, Car.startLaneChange, hst, hc, hne, h0]
  · intro c laneLength dt st hlc hpos hprog
    have hp : (1 : ℝ) ≤ min 1 (emod (c.position - st.startPosition) laneLength / st.targetDistance) :=
      le_min le_rfl hprog
    simp only [Car.updateLaneChange, hlc]
    rw [if_pos hpos, if_pos hp]
    exact ⟨rfl, rfl, rfl, rfl⟩

/-- Witness for the amended C6: initiation at the concrete car 7 between the
two concrete lanes, and commit at the concrete mid-merge car cMid. -/
theorem laneChange_membership_amended_witness :
    ((c6car.performAutonomousLaneChange srcLane tgtLane 1 40 0 false).1.state =
        CarState.MERGING ∧
      (c6car.performAutonomousLaneChange srcLane tgtLane 1 40 0 false).2.1.carIds =
        srcLane.carIds.erase c6car.id ∧
      (c6car.performAutonomousLaneChange srcLane tgtLane 1 40 0 false).2.2.carIds =
        tgtLane.carIds ++ [c6car.id] ∧
      (c6car.performAutonomousLaneChange srcLane tgtLane 1 40 0 false).1.position =
        emod 40 tgtLane.totalLength ∧
      (c6car.performAutonomousLaneChange srcLane tgtLane 1 40 0 false).1.laneIndex = 1) ∧
    ((cMid.updateLaneChange 100 (1 / 60)).state = CarState.DRIVING ∧
      (cMid.updateLaneChange 100 (1 / 60)).laneChange = none ∧
      (cMid.updateLaneChange 100 (1 / 60)).position = cMid.position ∧
      (cMid.updateLaneChange 100 (1 / 60)).laneIndex = cMid.laneIndex) := by
  constructor
  · exact laneChange_membership_amended.1 c6car srcLane tgtLane 1 40 0 false rfl rfl
      (by norm_num [tgtLane, srcLane])
  · refine laneChange_membership_amended.2 cMid 100 (1 / 60) lcMid rfl (by norm_num) ?_
    have h6 : cMid.position - lcMid.startPosition = 6 := by
      norm_num [cMid, c6car, carA, lcMid, retainLC]
    rw [h6, emod_eq_self 6 100 (by norm_num) (by norm_num)]
    norm_num [lcMid, retainLC]

end Traffic3D
